import Mathlib

/-!
Shallow embedding of the strategy/decision engine of `bot.py` (class `Bot`):
the bond market maker (`bond_initialize`/`bond_trading`), the ADR arbitrage
module (`adr_trading`), the ETF arbitrage module (`etf_trading`, `hedge_etf`)
and the per-event dispatch loop of `check_market`.  Transport (sockets, JSON
framing, `send_action`, `read_market`) is out of scope: an inbound decoded
event is a constructor of `Event`, and an outbound action handed to the
transport is a constructor of `Action`.  Python integers are `Int` (they are
unbounded), Python `//` is `Int.fdiv` (floor division), Python sets of order
ids are duplicate-free `List Nat` in insertion order, and the Python dict
`open_adr_converts` is an association list that is only ever read through
`List.lookup` (the program never iterates it).
-/

set_option linter.unusedVariables false

namespace JSBot

/-- Market symbols of the fixed instrument universe of `bot.py`. -/
inductive Sym : Type
  | BOND | VALBZ | VALE | GS | MS | WFC | XLF
  deriving DecidableEq, Repr

/-- Order direction. -/
inductive Dir : Type
  | BUY | SELL
  deriving DecidableEq, Repr

/-- Decoded inbound market events consumed by the strategy handlers. -/
inductive Event : Type
  | trade (symbol : Sym) (price : Int)
  | fill (order_id : Nat) (symbol : Sym) (dir : Dir) (size : Int)
  | out (order_id : Nat)
  deriving DecidableEq, Repr

/-- Outbound actions produced by the engine and handed to `send_action`. -/
inductive Action : Type
  | add (order_id : Nat) (symbol : Sym) (dir : Dir) (price : Int) (size : Int)
  | cancel (order_id : Nat)
  | convert (order_id : Nat) (symbol : Sym) (dir : Dir) (price : Int) (size : Int)
  deriving DecidableEq, Repr

/-- Insertion into a Python set modelled as a duplicate-free list kept in
insertion order (`set.add`). -/
def setInsert (l : List Nat) (x : Nat) : List Nat :=
  if x ∈ l then l else l ++ [x]

/-- The mutable state of the `Bot` instance: every field of `__init__` that
the decision logic touches, plus the lazily created attributes `adr_price`,
`adr_order_price`, `xlf_price` and `etf_order_price` (which Python creates on
first assignment; they are modelled as `Int` fields initialised to `0` and
are only read after the code has assigned them on every reachable path).
The dict `etf_queues` has the fixed keys GS, MS, WFC, so it is split into
three queue fields; likewise `etf_prices` is split into three `Option Int`
fields, a key being present iff the option is `some`, and `ind_count` is
split into its three entries. -/
structure BotState : Type where
  order_id : Nat
  open_bonds : List Nat
  adr_queue : List Int
  open_adrs : List Nat
  open_adr_converts : List (Nat × Dir)
  adr_count : Int
  adr_z_count : Int
  adr_price : Int
  adr_order_price : Int
  gs_queue : List Int
  ms_queue : List Int
  wfc_queue : List Int
  gs_price : Option Int
  ms_price : Option Int
  wfc_price : Option Int
  open_etfs : List Nat
  etf_count : Int
  ind_count0 : Int
  ind_count1 : Int
  ind_count2 : Int
  xlf_price : Int
  etf_order_price : Int
  deriving DecidableEq, Repr

/-- The state built by `Bot.__init__` (before `bond_initialize` runs). -/
def initState : BotState where
  order_id := 0
  open_bonds := []
  adr_queue := []
  open_adrs := []
  open_adr_converts := []
  adr_count := 0
  adr_z_count := 0
  adr_price := 0
  adr_order_price := 0
  gs_queue := []
  ms_queue := []
  wfc_queue := []
  gs_price := none
  ms_price := none
  wfc_price := none
  open_etfs := []
  etf_count := 0
  ind_count0 := 0
  ind_count1 := 0
  ind_count2 := 0
  xlf_price := 0
  etf_order_price := 0

/-- Append to a `deque([], 10)`: a bounded queue of capacity 10 that evicts
its oldest element when full. -/
def pushQ (q : List Int) (x : Int) : List Int :=
  if q.length < 10 then q ++ [x] else q.drop 1 ++ [x]

/-- The integer rolling average `sum(queue) // len(queue)` (Python floor
division). -/
def avgQ (q : List Int) : Int :=
  q.sum.fdiv (q.length : Int)

/-- `self.bond_threshold` from `__init__`. -/
def bond_threshold : Int := 1

/-- `Bot.bond_initialize`: the startup two-sided BOND quote, size 50 each
side, BUY at `1000 - bond_threshold` and SELL at `1000 + bond_threshold`. -/
def bondSetup (s : BotState) : BotState × List Action :=
  ({ s with
      open_bonds := setInsert (setInsert s.open_bonds s.order_id) (s.order_id + 1)
      order_id := s.order_id + 2 },
   [Action.add s.order_id Sym.BOND Dir.BUY (1000 - bond_threshold) 50,
    Action.add (s.order_id + 1) Sym.BOND Dir.SELL (1000 + bond_threshold) 50])

/-- `Bot.bond_trading`: on a fill of a tracked bond order, re-add a
replacement on the same side at the same price sized to the filled quantity;
on an out of a tracked bond order, drop the id from `open_bonds`. -/
def bond_trading (s : BotState) : Event → BotState × List Action
  | Event.fill oid _ d sz =>
      if oid ∈ s.open_bonds then
        match d with
        | Dir.BUY =>
            ({ s with
                open_bonds := setInsert s.open_bonds s.order_id
                order_id := s.order_id + 1 },
             [Action.add s.order_id Sym.BOND Dir.BUY (1000 - bond_threshold) sz])
        | Dir.SELL =>
            ({ s with
                open_bonds := setInsert s.open_bonds s.order_id
                order_id := s.order_id + 1 },
             [Action.add s.order_id Sym.BOND Dir.SELL (1000 + bond_threshold) sz])
      else (s, [])
  | Event.out oid =>
      if oid ∈ s.open_bonds then
        ({ s with open_bonds := s.open_bonds.erase oid }, [])
      else (s, [])
  | _ => (s, [])

/-- The VALBZ-trade branch of `Bot.adr_trading` (source lines 128-149):
append the trade price to the rolling window, recompute `adr_price`, and if
no ADR orders are live or the new estimate moved at least 5 from
`adr_order_price`, cancel every live ADR order (without removing it from the
set) and place the fresh two-sided VALE quote: BUY at `adr_price + 10` and
SELL at `adr_price - 10`, size 5 each, both ids registered in `open_adrs`. -/
def adrOnTrade (s : BotState) (sym : Sym) (price : Int) : BotState × List Action :=
  if sym = Sym.VALBZ then
    let q := pushQ s.adr_queue price
    let fair := avgQ q
    let s1 : BotState := { s with adr_queue := q, adr_price := fair }
    if s1.open_adrs = [] ∨ 5 ≤ (fair - s1.adr_order_price).natAbs then
      ({ s1 with
          adr_order_price := fair
          open_adrs := setInsert (setInsert s1.open_adrs s1.order_id) (s1.order_id + 1)
          order_id := s1.order_id + 2 },
       s1.open_adrs.map Action.cancel ++
         [Action.add s1.order_id Sym.VALE Dir.BUY (fair + 10) 5,
          Action.add (s1.order_id + 1) Sym.VALE Dir.SELL (fair - 10) 5])
    else (s1, [])
  else (s, [])

/-- The direction/symbol dispatch of the tracked-order fill block of
`Bot.adr_trading` (source lines 152-189): replenish and hedge on VALE fills,
update `adr_z_count` on VALBZ BUY fills; a VALBZ SELL fill matches no branch
and falls through unchanged. -/
def adrFillTracked (s : BotState) (sym : Sym) (d : Dir) (sz : Int) :
    BotState × List Action :=
  match d, sym with
  | Dir.BUY, Sym.VALE =>
      ({ s with
          open_adrs := setInsert (setInsert s.open_adrs s.order_id) (s.order_id + 1)
          order_id := s.order_id + 2
          adr_count := s.adr_count + sz },
       [Action.add s.order_id Sym.VALE Dir.BUY (s.adr_price + 10) sz,
        Action.add (s.order_id + 1) Sym.VALBZ Dir.SELL (s.adr_price - 10) sz])
  | Dir.BUY, Sym.VALBZ =>
      ({ s with adr_z_count := s.adr_z_count + sz }, [])
  | Dir.SELL, Sym.VALE =>
      ({ s with
          open_adrs := setInsert (setInsert s.open_adrs s.order_id) (s.order_id + 1)
          order_id := s.order_id + 2
          adr_count := s.adr_count - sz },
       [Action.add s.order_id Sym.VALE Dir.SELL (s.adr_price - 10) sz,
        Action.add (s.order_id + 1) Sym.VALBZ Dir.BUY (s.adr_price + 10) sz])
  | _, _ => (s, [])

/-- The two exact-equality conversion checks of `Bot.adr_trading` (source
lines 191-205), run with `sz = data["size"]` of the triggering fill. -/
def adrConvertChecks (s : BotState) (sz : Int) : BotState × List Action :=
  let r3 : BotState × List Action :=
    if s.adr_count = 10 ∧ s.adr_z_count = -10 then
      ({ s with
          open_adr_converts := (s.order_id, Dir.SELL) :: s.open_adr_converts
          order_id := s.order_id + 1 },
       [Action.convert s.order_id Sym.VALE Dir.SELL s.adr_price sz])
    else (s, [])
  let s3 := r3.1
  let r4 : BotState × List Action :=
    if s3.adr_count = -10 ∧ s3.adr_z_count = 10 then
      ({ s3 with
          open_adr_converts := (s3.order_id, Dir.BUY) :: s3.open_adr_converts
          order_id := s3.order_id + 1 },
       [Action.convert s3.order_id Sym.VALE Dir.BUY s3.adr_price sz])
    else (s3, [])
  (r4.1, r3.2 ++ r4.2)

/-- The pending-conversion block of `Bot.adr_trading` (source lines
207-215). -/
def adrConvertFill (s : BotState) (oid : Nat) (sz : Int) : BotState × List Action :=
  match s.open_adr_converts.lookup oid with
  | some Dir.BUY =>
      ({ s with adr_count := s.adr_count + sz, adr_z_count := s.adr_z_count - sz }, [])
  | some Dir.SELL =>
      ({ s with adr_count := s.adr_count - sz, adr_z_count := s.adr_z_count + sz }, [])
  | none => (s, [])

/-- The fill branches of `Bot.adr_trading` (source lines 151-215): the
tracked-order block followed by its conversion checks, then the
pending-conversion block on the resulting state. -/
def adrOnFill (s : BotState) (oid : Nat) (sym : Sym) (d : Dir) (sz : Int) :
    BotState × List Action :=
  let r1 : BotState × List Action :=
    if oid ∈ s.open_adrs then
      let r2 := adrFillTracked s sym d sz
      let rc := adrConvertChecks r2.1 sz
      (rc.1, r2.2 ++ rc.2)
    else (s, [])
  let r5 := adrConvertFill r1.1 oid sz
  (r5.1, r1.2 ++ r5.2)

/-- `Bot.adr_trading` dispatched over the three event shapes (the Python
`if`/`elif` chains test `data["type"]`, which is determined by the `Event`
constructor). -/
def adr_trading (s : BotState) : Event → BotState × List Action
  | Event.trade sym p => adrOnTrade s sym p
  | Event.fill oid sym d sz => adrOnFill s oid sym d sz
  | Event.out oid =>
      if oid ∈ s.open_adrs then
        ({ s with open_adrs := s.open_adrs.erase oid }, [])
      else (s, [])

/-- `Bot.hedge_etf`: three component hedge adds (GS size 2, MS size 3, WFC
size 2) in direction `oper`, each priced at the component estimate minus
`30 * fac`.  Python reads `self.etf_prices[...]`, which exists whenever an
XLF quote is live; `Option.getD 0` models the dict read (a `KeyError` is
unreachable on those paths). -/
def hedge_etf (s : BotState) (oper : Dir) (fac : Int) : BotState × List Action :=
  ({ s with
      open_etfs :=
        setInsert (setInsert (setInsert s.open_etfs s.order_id) (s.order_id + 1))
          (s.order_id + 2)
      order_id := s.order_id + 3 },
   [Action.add s.order_id Sym.GS oper (s.gs_price.getD 0 - 30 * fac) 2,
    Action.add (s.order_id + 1) Sym.MS oper (s.ms_price.getD 0 - 30 * fac) 3,
    Action.add (s.order_id + 2) Sym.WFC oper (s.wfc_price.getD 0 - 30 * fac) 2])

/-- Whether all three XLF components have a price estimate
(`len(self.etf_prices) == 3`; the dict only ever holds the keys GS, MS,
WFC). -/
def allThree (s : BotState) : Bool :=
  s.gs_price.isSome && s.ms_price.isSome && s.wfc_price.isSome

/-- The composite ETF estimate recomputed from the current component
estimates, as on source lines 272-273. -/
def composite (s : BotState) : Int :=
  (3000 + 2 * s.gs_price.getD 0 + 3 * s.ms_price.getD 0 + 2 * s.wfc_price.getD 0).fdiv 10

/-- The quoting tail of the component-trade branch of `Bot.etf_trading`
(source lines 271-292), run after the traded component's queue and estimate
have been updated: once all three component estimates exist, recompute
`xlf_price`, and if no ETF orders are live or the composite moved at least 10
from `etf_order_price`, cancel all live ETF orders and place the fresh
two-sided XLF quote at `xlf_price ∓ 25`, size 50 each. -/
def etfQuote (s : BotState) : BotState × List Action :=
  if allThree s then
    let s1 : BotState := { s with xlf_price := composite s }
    if s1.open_etfs = [] ∨ 10 ≤ (composite s - s1.etf_order_price).natAbs then
      ({ s1 with
          etf_order_price := composite s
          open_etfs := setInsert (setInsert s1.open_etfs s1.order_id) (s1.order_id + 1)
          order_id := s1.order_id + 2 },
       s1.open_etfs.map Action.cancel ++
         [Action.add s1.order_id Sym.XLF Dir.BUY (composite s - 25) 50,
          Action.add (s1.order_id + 1) Sym.XLF Dir.SELL (composite s + 25) 50])
    else (s1, [])
  else (s, [])

/-- The component-trade branch of `Bot.etf_trading` (source lines 265-292):
only GS, MS and WFC trades are consumed (`data["symbol"] in
self.etf_queues`). -/
def etfOnTrade (s : BotState) (sym : Sym) (price : Int) : BotState × List Action :=
  match sym with
  | Sym.GS =>
      let q := pushQ s.gs_queue price
      etfQuote { s with gs_queue := q, gs_price := some (avgQ q) }
  | Sym.MS =>
      let q := pushQ s.ms_queue price
      etfQuote { s with ms_queue := q, ms_price := some (avgQ q) }
  | Sym.WFC =>
      let q := pushQ s.wfc_queue price
      etfQuote { s with wfc_queue := q, wfc_price := some (avgQ q) }
  | _ => (s, [])

/-- The fill branch of `Bot.etf_trading` (source lines 294-345): on a tracked
XLF fill, replenish the same side, update `etf_count` and hedge with the
three components; on a tracked component fill, adjust that component's
`ind_count` entry with the sign opposite to holdings growth; then the
threshold conversion check of the corresponding direction — whose convert
action does not advance `order_id` and is not registered anywhere. -/
def etfOnFill (s : BotState) (oid : Nat) (sym : Sym) (d : Dir) (sz : Int) :
    BotState × List Action :=
  if oid ∈ s.open_etfs then
    match d with
    | Dir.BUY =>
        let r2 : BotState × List Action :=
          match sym with
          | Sym.XLF =>
              let sA : BotState :=
                { s with
                    open_etfs := setInsert s.open_etfs s.order_id
                    etf_count := s.etf_count + sz
                    order_id := s.order_id + 1 }
              let rB := hedge_etf sA Dir.SELL 1
              (rB.1, Action.add s.order_id Sym.XLF Dir.BUY (s.xlf_price - 25) sz :: rB.2)
          | Sym.GS => ({ s with ind_count0 := s.ind_count0 - sz }, [])
          | Sym.MS => ({ s with ind_count1 := s.ind_count1 - sz }, [])
          | Sym.WFC => ({ s with ind_count2 := s.ind_count2 - sz }, [])
          | _ => (s, [])
        let s2 := r2.1
        if 30 ≤ s2.etf_count ∧ 6 ≤ s2.ind_count0 ∧ 9 ≤ s2.ind_count1 ∧ 6 ≤ s2.ind_count2 then
          (s2, r2.2 ++ [Action.convert s2.order_id Sym.XLF Dir.SELL (s2.xlf_price + 25) 30])
        else (s2, r2.2)
    | Dir.SELL =>
        let r2 : BotState × List Action :=
          match sym with
          | Sym.XLF =>
              let sA : BotState :=
                { s with
                    open_etfs := setInsert s.open_etfs s.order_id
                    etf_count := s.etf_count - sz
                    order_id := s.order_id + 1 }
              let rB := hedge_etf sA Dir.BUY (-1)
              (rB.1, Action.add s.order_id Sym.XLF Dir.SELL (s.xlf_price + 25) sz :: rB.2)
          | Sym.GS => ({ s with ind_count0 := s.ind_count0 + sz }, [])
          | Sym.MS => ({ s with ind_count1 := s.ind_count1 + sz }, [])
          | Sym.WFC => ({ s with ind_count2 := s.ind_count2 + sz }, [])
          | _ => (s, [])
        let s2 := r2.1
        if s2.etf_count ≤ -30 ∧ s2.ind_count0 ≤ -6 ∧ s2.ind_count1 ≤ -9 ∧ s2.ind_count2 ≤ -6 then
          (s2, r2.2 ++ [Action.convert s2.order_id Sym.XLF Dir.BUY (s2.xlf_price - 25) 30])
        else (s2, r2.2)
  else (s, [])

/-- `Bot.etf_trading` dispatched over the three event shapes. -/
def etf_trading (s : BotState) : Event → BotState × List Action
  | Event.trade sym p => etfOnTrade s sym p
  | Event.fill oid sym d sz => etfOnFill s oid sym d sz
  | Event.out oid =>
      if oid ∈ s.open_etfs then
        ({ s with open_etfs := s.open_etfs.erase oid }, [])
      else (s, [])

/-- One iteration of the `check_market` loop: the event is handed to
`bond_trading`, then `adr_trading`, then `etf_trading`, threading the state
and concatenating the emitted actions. -/
def stepBot (s : BotState) (e : Event) : BotState × List Action :=
  let r1 := bond_trading s e
  let r2 := adr_trading r1.1 e
  let r3 := etf_trading r2.1 e
  (r3.1, r1.2 ++ r2.2 ++ r3.2)

/-- Process a list of events in arrival order. -/
def runBot : BotState → List Event → BotState × List Action
  | s, [] => (s, [])
  | s, e :: es =>
      let r1 := stepBot s e
      let r2 := runBot r1.1 es
      (r2.1, r1.2 ++ r2.2)

/-- A whole session: `__init__` state, the startup bond quote of
`bond_initialize`, then the event loop. -/
def runFromStart (es : List Event) : BotState × List Action :=
  let r0 := bondSetup initState
  let r1 := runBot r0.1 es
  (r1.1, r0.2 ++ r1.2)

/-! ## Helper definitions and frame lemmas -/

/-- The order id carried by an outbound action. -/
def Action.aid : Action → Nat
  | Action.add i _ _ _ _ => i
  | Action.cancel i => i
  | Action.convert i _ _ _ _ => i

/-- Whether an action is an `add` or a `convert` (the id-consuming kinds). -/
def Action.isAddConv : Action → Bool
  | Action.cancel _ => false
  | _ => true

/-- Whether an action is a `convert`. -/
def Action.isConv : Action → Bool
  | Action.convert _ _ _ _ _ => true
  | _ => false

/-- Whether an action is a `convert` on XLF (the kind whose emission does not
advance the order-id allocator in the source). -/
def Action.isXlfConv : Action → Bool
  | Action.convert _ Sym.XLF _ _ _ => true
  | _ => false

/-- A concrete state tracking bond order 0, ADR order 1, ETF order 2 and
pending conversion 3, used to exercise the unknown-id paths. -/
def busyState : BotState :=
  { initState with
      open_bonds := [0]
      open_adrs := [1]
      open_etfs := [2]
      open_adr_converts := [(3, Dir.SELL)]
      order_id := 4 }

/-- A concrete state one VALBZ BUY hedge fill away from the (−10, 10)
conversion trigger. -/
def convState : BotState :=
  { initState with
      open_adrs := [0]
      order_id := 1
      adr_count := -10
      adr_z_count := 7
      adr_price := 500 }

/-- A concrete state in which order id 3 is live for both the ADR and the
ETF strategy. -/
def c9State : BotState :=
  { initState with
      open_adrs := [3]
      open_etfs := [3]
      order_id := 4 }

/-- A concrete state with one-sample GS and MS windows already consumed
(the state reached from `__init__` by the trades GS@100 then MS@50). -/
def sW : BotState :=
  (etf_trading (etf_trading initState (Event.trade Sym.GS 100)).1 (Event.trade Sym.MS 50)).1

/-- A concrete state whose MS and WFC estimates are present, one GS trade
away from a full composite. -/
def tW : BotState :=
  { initState with ms_price := some 50, wfc_price := some 70 }

/-- Ordering of two outbound actions by allocator discipline: the earlier
action's id is strictly smaller, or the ids coincide and the earlier action
is an XLF convert (the only emission that does not advance `order_id`). -/
def IdOrder (a b : Action) : Prop :=
  a.aid < b.aid ∨ (a.aid = b.aid ∧ a.isXlfConv = true)

/-- The allocator contract of a batch of actions emitted while `order_id`
advances from `n` to `m`: the counter never decreases, every id-consuming
action (add/convert) carries an id in `[n, m]` — hitting `m` only for an XLF
convert — and the id-consuming actions are pairwise `IdOrder`-related. -/
def BatchOK (n : Nat) (l : List Action) (m : Nat) : Prop :=
  n ≤ m ∧
  (∀ a ∈ l.filter (fun a => a.isAddConv), n ≤ a.aid ∧
    (a.aid < m ∨ (a.aid = m ∧ a.isXlfConv = true))) ∧
  (l.filter (fun a => a.isAddConv)).Pairwise IdOrder

theorem mem_setInsert_of_mem {l : List Nat} {x : Nat} (y : Nat) (h : x ∈ l) :
    x ∈ setInsert l y := by
  unfold setInsert
  split
  · exact h
  · exact List.mem_append_left _ h

theorem lookup_isSome_cons {m : List (Nat × Dir)} {j k : Nat} {v : Dir}
    (h : (m.lookup j).isSome = true) : (((k, v) :: m).lookup j).isSome = true := by
  by_cases hjk : j == k
  · simp [List.lookup, hjk]
  · simpa [List.lookup, hjk] using h

theorem lookup_cons_of_ne {m : List (Nat × Dir)} {j k : Nat} {v : Dir}
    (h : ¬ j = k) : ((k, v) :: m).lookup j = m.lookup j := by
  simp [List.lookup, beq_false_of_ne h]

theorem bond_open_adrs (s : BotState) (e : Event) :
    (bond_trading s e).1.open_adrs = s.open_adrs := by
  cases e <;> simp only [bond_trading] <;> (repeat' split) <;> rfl

theorem bond_open_etfs (s : BotState) (e : Event) :
    (bond_trading s e).1.open_etfs = s.open_etfs := by
  cases e <;> simp only [bond_trading] <;> (repeat' split) <;> rfl

theorem bond_adr_converts (s : BotState) (e : Event) :
    (bond_trading s e).1.open_adr_converts = s.open_adr_converts := by
  cases e <;> simp only [bond_trading] <;> (repeat' split) <;> rfl

theorem bond_adr_counts (s : BotState) (e : Event) :
    (bond_trading s e).1.adr_count = s.adr_count ∧
    (bond_trading s e).1.adr_z_count = s.adr_z_count := by
  cases e <;> simp only [bond_trading] <;> (repeat' split) <;> simp

theorem etf_open_adrs (s : BotState) (e : Event) :
    (etf_trading s e).1.open_adrs = s.open_adrs := by
  cases e <;>
    simp only [etf_trading, etfOnTrade, etfOnFill, etfQuote, hedge_etf] <;>
    (repeat' split) <;> rfl

theorem etf_adr_converts (s : BotState) (e : Event) :
    (etf_trading s e).1.open_adr_converts = s.open_adr_converts := by
  cases e <;>
    simp only [etf_trading, etfOnTrade, etfOnFill, etfQuote, hedge_etf] <;>
    (repeat' split) <;> rfl

theorem etf_adr_counts (s : BotState) (e : Event) :
    (etf_trading s e).1.adr_count = s.adr_count ∧
    (etf_trading s e).1.adr_z_count = s.adr_z_count := by
  cases e <;>
    simp only [etf_trading, etfOnTrade, etfOnFill, etfQuote, hedge_etf] <;>
    (repeat' split) <;> simp

theorem adr_open_etfs (s : BotState) (e : Event) :
    (adr_trading s e).1.open_etfs = s.open_etfs := by
  cases e <;>
    simp only [adr_trading, adrOnTrade, adrOnFill, adrFillTracked,
      adrConvertChecks, adrConvertFill] <;>
    (repeat' split) <;> rfl

theorem bond_noop_fill {s : BotState} {oid : Nat} {sym : Sym} {d : Dir} {sz : Int}
    (h : oid ∉ s.open_bonds) : bond_trading s (Event.fill oid sym d sz) = (s, []) := by
  simp only [bond_trading]
  rw [if_neg h]

theorem bond_noop_out {s : BotState} {oid : Nat} (h : oid ∉ s.open_bonds) :
    bond_trading s (Event.out oid) = (s, []) := by
  simp only [bond_trading]
  rw [if_neg h]

theorem adr_noop_fill {s : BotState} {oid : Nat} {sym : Sym} {d : Dir} {sz : Int}
    (h : oid ∉ s.open_adrs) (h4 : s.open_adr_converts.lookup oid = none) :
    adr_trading s (Event.fill oid sym d sz) = (s, []) := by
  simp only [adr_trading, adrOnFill]
  rw [if_neg h]
  simp [adrConvertFill, h4]

theorem adr_noop_out {s : BotState} {oid : Nat} (h : oid ∉ s.open_adrs) :
    adr_trading s (Event.out oid) = (s, []) := by
  simp only [adr_trading]
  rw [if_neg h]

theorem etf_noop_fill {s : BotState} {oid : Nat} {sym : Sym} {d : Dir} {sz : Int}
    (h : oid ∉ s.open_etfs) : etf_trading s (Event.fill oid sym d sz) = (s, []) := by
  simp only [etf_trading, etfOnFill]
  rw [if_neg h]

theorem etf_noop_out {s : BotState} {oid : Nat} (h : oid ∉ s.open_etfs) :
    etf_trading s (Event.out oid) = (s, []) := by
  simp only [etf_trading]
  rw [if_neg h]

theorem adrFillTracked_converts (s : BotState) (sym : Sym) (d : Dir) (sz : Int) :
    (adrFillTracked s sym d sz).1.open_adr_converts = s.open_adr_converts := by
  cases d <;> cases sym <;> rfl

theorem adrFillTracked_price (s : BotState) (sym : Sym) (d : Dir) (sz : Int) :
    (adrFillTracked s sym d sz).1.adr_price = s.adr_price := by
  cases d <;> cases sym <;> rfl

theorem adrFillTracked_order (s : BotState) (sym : Sym) (d : Dir) (sz : Int) :
    s.order_id ≤ (adrFillTracked s sym d sz).1.order_id := by
  cases d <;> cases sym <;> simp [adrFillTracked]

theorem adrFillTracked_no_conv (s : BotState) (sym : Sym) (d : Dir) (sz : Int) :
    ∀ a ∈ (adrFillTracked s sym d sz).2, a.isConv = false := by
  intro a ha
  cases d <;> cases sym <;> simp [adrFillTracked] at ha <;>
    rcases ha with rfl | rfl <;> rfl

theorem adrConvertChecks_counts (s : BotState) (sz : Int) :
    (adrConvertChecks s sz).1.adr_count = s.adr_count ∧
    (adrConvertChecks s sz).1.adr_z_count = s.adr_z_count := by
  dsimp only [adrConvertChecks]
  split_ifs <;> exact ⟨rfl, rfl⟩

theorem adrConvertChecks_lookup (s : BotState) (sz : Int) (j : Nat)
    (hj : j < s.order_id) :
    (adrConvertChecks s sz).1.open_adr_converts.lookup j =
      s.open_adr_converts.lookup j := by
  dsimp only [adrConvertChecks]
  split_ifs
  · rw [lookup_cons_of_ne (by omega : ¬ j = s.order_id + 1),
      lookup_cons_of_ne (by omega : ¬ j = s.order_id)]
  · rw [lookup_cons_of_ne (by omega : ¬ j = s.order_id)]
  · rw [lookup_cons_of_ne (by omega : ¬ j = s.order_id)]
  · rfl

theorem adrConvertChecks_acts (s : BotState) (sz : Int) :
    (adrConvertChecks s sz).2 =
      if s.adr_count = 10 ∧ s.adr_z_count = -10 then
        [Action.convert s.order_id Sym.VALE Dir.SELL s.adr_price sz]
      else if s.adr_count = -10 ∧ s.adr_z_count = 10 then
        [Action.convert s.order_id Sym.VALE Dir.BUY s.adr_price sz]
      else [] := by
  dsimp only [adrConvertChecks]
  split_ifs <;> simp_all

theorem adrConvertFill_none {s : BotState} {oid : Nat} {sz : Int}
    (h : s.open_adr_converts.lookup oid = none) :
    adrConvertFill s oid sz = (s, []) := by
  simp [adrConvertFill, h]

theorem adrConvertFill_some {s : BotState} {oid : Nat} {sz : Int} {d : Dir}
    (h : s.open_adr_converts.lookup oid = some d) :
    adrConvertFill s oid sz =
      (match d with
       | Dir.BUY =>
          { s with adr_count := s.adr_count + sz, adr_z_count := s.adr_z_count - sz }
       | Dir.SELL =>
          { s with adr_count := s.adr_count - sz, adr_z_count := s.adr_z_count + sz },
       []) := by
  cases d <;> simp [adrConvertFill, h]

/-- On a fill of a tracked ADR order whose id is fresh-bounded and not a
pending conversion, `adr_trading` is exactly the tracked-fill block followed
by the conversion checks. -/
theorem adrOnFill_tracked_eq (s : BotState) (oid : Nat) (sym : Sym) (d : Dir) (sz : Int)
    (h1 : oid ∈ s.open_adrs) (h2 : s.open_adr_converts.lookup oid = none)
    (h3 : oid < s.order_id) :
    adr_trading s (Event.fill oid sym d sz) =
      ((adrConvertChecks (adrFillTracked s sym d sz).1 sz).1,
       (adrFillTracked s sym d sz).2 ++
         (adrConvertChecks (adrFillTracked s sym d sz).1 sz).2) := by
  have hlook :
      (adrConvertChecks (adrFillTracked s sym d sz).1 sz).1.open_adr_converts.lookup oid
        = none := by
    rw [adrConvertChecks_lookup _ _ _ (lt_of_lt_of_le h3 (adrFillTracked_order s sym d sz)),
      adrFillTracked_converts]
    exact h2
  simp only [adr_trading, adrOnFill]
  rw [if_pos h1]
  dsimp only
  rw [adrConvertFill_none hlook]
  simp

/-! ## Claim C1 -/

/-- Claim C1, counterexample: on the very scenario the claim names — a first
VALBZ trade at price 500 with an empty window, so fair = 500 — the two VALE
adds are BUY at 510 = fair + 10 and SELL at 490 = fair − 10, and no add
prices the BUY at fair − 10 = 490 or the SELL at fair + 10 = 510; the
claimed quote `BUY VALE@490×5, SELL VALE@510×5` is never emitted. -/
theorem c1_counterexample :
    (adr_trading initState (Event.trade Sym.VALBZ 500)).2 =
      [Action.add 0 Sym.VALE Dir.BUY 510 5, Action.add 1 Sym.VALE Dir.SELL 490 5] ∧
    Action.add 0 Sym.VALE Dir.BUY 490 5 ∉ (adr_trading initState (Event.trade Sym.VALBZ 500)).2 ∧
    Action.add 1 Sym.VALE Dir.SELL 510 5 ∉ (adr_trading initState (Event.trade Sym.VALBZ 500)).2 := by
  decide

/-- Claim C1 (amended): whenever the ADR module re-quotes (a VALBZ trade
arrives and either no ADR orders are live or the new fair value moved at
least 5 from the quote basis), the two emitted add actions on VALE are a BUY
priced at fair + 10 and a SELL priced at fair − 10 (the source swaps the
claimed sides), each of size 5, where fair is the integer rolling average of
VALBZ trade prices; both fresh ids are added to `open_adrs` (which also
keeps the cancelled ids). -/
theorem c1_adr_requote_quotes (s : BotState) (p : Int)
    (h : s.open_adrs = [] ∨ 5 ≤ (avgQ (pushQ s.adr_queue p) - s.adr_order_price).natAbs) :
    adr_trading s (Event.trade Sym.VALBZ p) =
      ({ s with
          adr_queue := pushQ s.adr_queue p
          adr_price := avgQ (pushQ s.adr_queue p)
          adr_order_price := avgQ (pushQ s.adr_queue p)
          open_adrs := setInsert (setInsert s.open_adrs s.order_id) (s.order_id + 1)
          order_id := s.order_id + 2 },
       s.open_adrs.map Action.cancel ++
         [Action.add s.order_id Sym.VALE Dir.BUY (avgQ (pushQ s.adr_queue p) + 10) 5,
          Action.add (s.order_id + 1) Sym.VALE Dir.SELL (avgQ (pushQ s.adr_queue p) - 10) 5]) := by
  show adrOnTrade s Sym.VALBZ p = _
  unfold adrOnTrade
  rw [if_pos (rfl : Sym.VALBZ = Sym.VALBZ)]
  dsimp only
  rw [if_pos h]

/-- Claim C1, witness: the amended theorem applied at the empty-window state
and a VALBZ trade at 500 reproduces the concrete quote BUY VALE@510×5,
SELL VALE@490×5. -/
theorem c1_adr_requote_quotes_witness :
    (initState.open_adrs = [] ∨
      5 ≤ (avgQ (pushQ initState.adr_queue 500) - initState.adr_order_price).natAbs) ∧
    (adr_trading initState (Event.trade Sym.VALBZ 500)).2 =
      [Action.add 0 Sym.VALE Dir.BUY 510 5, Action.add 1 Sym.VALE Dir.SELL 490 5] := by
  refine ⟨Or.inl rfl, ?_⟩
  rw [c1_adr_requote_quotes initState 500 (Or.inl rfl)]
  decide

/-! ## Claim C2 -/

/-- Claim C2, counterexample: after the run bond-setup; VALBZ trade at 500
(quoting VALE ids 2, 3); BUY fill of 5 on the VALE BUY order 2 (which hedges
by adding the VALBZ SELL order 5), a SELL fill of size 5 on the tracked
VALBZ hedge order 5 is a complete no-op: `adr_z_count` stays 0 instead of
being decremented to −5 as the claim requires. -/
theorem c2_counterexample :
    (5 ∈ (runFromStart [Event.trade Sym.VALBZ 500,
        Event.fill 2 Sym.VALE Dir.BUY 5]).1.open_adrs) ∧
    (runFromStart [Event.trade Sym.VALBZ 500, Event.fill 2 Sym.VALE Dir.BUY 5]).1.adr_z_count
      = 0 ∧
    stepBot (runFromStart [Event.trade Sym.VALBZ 500, Event.fill 2 Sym.VALE Dir.BUY 5]).1
        (Event.fill 5 Sym.VALBZ Dir.SELL 5) =
      ((runFromStart [Event.trade Sym.VALBZ 500, Event.fill 2 Sym.VALE Dir.BUY 5]).1, []) ∧
    (stepBot (runFromStart [Event.trade Sym.VALBZ 500, Event.fill 2 Sym.VALE Dir.BUY 5]).1
        (Event.fill 5 Sym.VALBZ Dir.SELL 5)).1.adr_z_count ≠
      (runFromStart [Event.trade Sym.VALBZ 500, Event.fill 2 Sym.VALE Dir.BUY 5]).1.adr_z_count
        - 5 := by
  decide

/-- Claim C2 (amended): a fill of a tracked ADR order that is not a pending
conversion updates the ADR inventory pair exactly once, by the fill size
with the sign dictated by symbol and direction — VALE BUY adds to
`adr_count`, VALE SELL subtracts, VALBZ BUY adds to `adr_z_count` — except
that a VALBZ SELL fill (the hedge-sell case the claim cites) matches no
branch in the source and leaves both counters unchanged. -/
theorem c2_adr_fill_inventory (s : BotState) (oid : Nat) (sym : Sym) (d : Dir) (sz : Int)
    (h1 : oid ∈ s.open_adrs) (h2 : s.open_adr_converts.lookup oid = none)
    (h3 : oid < s.order_id) :
    ((adr_trading s (Event.fill oid sym d sz)).1.adr_count,
     (adr_trading s (Event.fill oid sym d sz)).1.adr_z_count) =
      (match d, sym with
       | Dir.BUY, Sym.VALE => (s.adr_count + sz, s.adr_z_count)
       | Dir.SELL, Sym.VALE => (s.adr_count - sz, s.adr_z_count)
       | Dir.BUY, Sym.VALBZ => (s.adr_count, s.adr_z_count + sz)
       | _, _ => (s.adr_count, s.adr_z_count)) := by
  rw [adrOnFill_tracked_eq s oid sym d sz h1 h2 h3]
  dsimp only
  rw [(adrConvertChecks_counts _ _).1, (adrConvertChecks_counts _ _).2]
  cases d <;> cases sym <;> rfl

/-- Claim C2, witness: a VALE BUY fill of size 5 on tracked order 1
increments `adr_count` by 5 and leaves `adr_z_count` alone. -/
theorem c2_adr_fill_inventory_witness :
    (1 ∈ busyState.open_adrs) ∧
    ((adr_trading busyState (Event.fill 1 Sym.VALE Dir.BUY 5)).1.adr_count,
     (adr_trading busyState (Event.fill 1 Sym.VALE Dir.BUY 5)).1.adr_z_count) =
      (busyState.adr_count + 5, busyState.adr_z_count) := by
  refine ⟨by decide, ?_⟩
  exact c2_adr_fill_inventory busyState 1 Sym.VALE Dir.BUY 5
    (by decide) (by decide) (by decide)

/-! ## Claim C3 -/

/-- Claim C3, counterexample: in the run reaching inventories (−10, 10)
through VALE SELL fills and VALBZ BUY hedge fills whose last fill has size
2, the emitted convert action has size 2 — the size of the triggering fill —
and no convert action of size 10 is ever emitted, contradicting the claimed
fixed size 10. -/
theorem c3_counterexample :
    Action.convert 8 Sym.VALE Dir.BUY 500 2 ∈
      (runFromStart [Event.trade Sym.VALBZ 500, Event.fill 3 Sym.VALE Dir.SELL 5,
        Event.fill 3 Sym.VALE Dir.SELL 5, Event.fill 5 Sym.VALBZ Dir.BUY 5,
        Event.fill 7 Sym.VALBZ Dir.BUY 3, Event.fill 7 Sym.VALBZ Dir.BUY 2]).2 ∧
    ((runFromStart [Event.trade Sym.VALBZ 500, Event.fill 3 Sym.VALE Dir.SELL 5,
        Event.fill 3 Sym.VALE Dir.SELL 5, Event.fill 5 Sym.VALBZ Dir.BUY 5,
        Event.fill 7 Sym.VALBZ Dir.BUY 3, Event.fill 7 Sym.VALBZ Dir.BUY 2]).2.all
      fun a => match a with
        | Action.convert _ _ _ _ z => z == 2
        | _ => true) = true := by
  decide

/-- Claim C3 (amended): while processing a fill for a tracked ADR order (not
itself a pending conversion), a convert action is emitted if and only if the
post-fill inventory pair is exactly (10, −10) — a SELL convert — or exactly
(−10, 10) — a BUY convert; the emitted convert is on VALE at the current
`adr_price` and its size equals the triggering fill's size (`data["size"]`),
not the fixed 10 the claim states; no convert is emitted at any other pair
such as (15, −15). -/
theorem c3_adr_convert_iff (s : BotState) (oid : Nat) (sym : Sym) (d : Dir) (sz : Int)
    (h1 : oid ∈ s.open_adrs) (h2 : s.open_adr_converts.lookup oid = none)
    (h3 : oid < s.order_id) :
    ((∃ i sy d' p z, Action.convert i sy d' p z ∈ (adr_trading s (Event.fill oid sym d sz)).2) ↔
      (((adr_trading s (Event.fill oid sym d sz)).1.adr_count = 10 ∧
        (adr_trading s (Event.fill oid sym d sz)).1.adr_z_count = -10) ∨
       ((adr_trading s (Event.fill oid sym d sz)).1.adr_count = -10 ∧
        (adr_trading s (Event.fill oid sym d sz)).1.adr_z_count = 10))) ∧
    (∀ i sy d' p z, Action.convert i sy d' p z ∈ (adr_trading s (Event.fill oid sym d sz)).2 →
      sy = Sym.VALE ∧ z = sz ∧ p = s.adr_price ∧
      (d' = Dir.SELL ↔ (adr_trading s (Event.fill oid sym d sz)).1.adr_count = 10)) := by
  rw [adrOnFill_tracked_eq s oid sym d sz h1 h2 h3]
  dsimp only
  rw [(adrConvertChecks_counts _ _).1, (adrConvertChecks_counts _ _).2,
    adrConvertChecks_acts]
  have hprice := adrFillTracked_price s sym d sz
  by_cases hc1 : (adrFillTracked s sym d sz).1.adr_count = 10 ∧
      (adrFillTracked s sym d sz).1.adr_z_count = -10
  · rw [if_pos hc1]
    constructor
    · exact ⟨fun _ => Or.inl hc1,
        fun _ => ⟨(adrFillTracked s sym d sz).1.order_id, Sym.VALE, Dir.SELL,
          (adrFillTracked s sym d sz).1.adr_price, sz,
          List.mem_append_right _ (List.mem_singleton.mpr rfl)⟩⟩
    · intro i sy d' p z hmem
      rcases List.mem_append.mp hmem with hA | hC
      · have := adrFillTracked_no_conv s sym d sz _ hA
        simp [Action.isConv] at this
      · have heq := List.mem_singleton.mp hC
        injection heq with e1 e2 e3 e4 e5
        subst e2; subst e3; subst e4; subst e5
        exact ⟨rfl, rfl, hprice, by simp [hc1.1]⟩
  · rw [if_neg hc1]
    by_cases hc2 : (adrFillTracked s sym d sz).1.adr_count = -10 ∧
        (adrFillTracked s sym d sz).1.adr_z_count = 10
    · rw [if_pos hc2]
      constructor
      · exact ⟨fun _ => Or.inr hc2,
          fun _ => ⟨(adrFillTracked s sym d sz).1.order_id, Sym.VALE, Dir.BUY,
            (adrFillTracked s sym d sz).1.adr_price, sz,
            List.mem_append_right _ (List.mem_singleton.mpr rfl)⟩⟩
      · intro i sy d' p z hmem
        rcases List.mem_append.mp hmem with hA | hC
        · have := adrFillTracked_no_conv s sym d sz _ hA
          simp [Action.isConv] at this
        · have heq := List.mem_singleton.mp hC
          injection heq with e1 e2 e3 e4 e5
          subst e2; subst e3; subst e4; subst e5
          refine ⟨rfl, rfl, hprice, ?_⟩
          constructor
          · intro hdd; cases hdd
          · intro hcc; rw [hc2.1] at hcc; omega
    · rw [if_neg hc2]
      constructor
      · constructor
        · rintro ⟨i, sy, d', p, z, hmem⟩
          rw [List.append_nil] at hmem
          have := adrFillTracked_no_conv s sym d sz _ hmem
          simp [Action.isConv] at this
        · rintro (hcc | hcc)
          · exact absurd hcc hc1
          · exact absurd hcc hc2
      · intro i sy d' p z hmem
        rw [List.append_nil] at hmem
        have := adrFillTracked_no_conv s sym d sz _ hmem
        simp [Action.isConv] at this

/-- Claim C3, witness: a VALBZ BUY fill of size 3 on tracked order 0
brings the inventories to exactly (−10, 10), and a convert action is
emitted. -/
theorem c3_adr_convert_iff_witness :
    (0 ∈ convState.open_adrs) ∧ convState.open_adr_converts.lookup 0 = none ∧
    0 < convState.order_id ∧
    (∃ i sy d' p z, Action.convert i sy d' p z ∈
      (adr_trading convState (Event.fill 0 Sym.VALBZ Dir.BUY 3)).2) := by
  refine ⟨by decide, by decide, by decide, ?_⟩
  exact (c3_adr_convert_iff convState 0 Sym.VALBZ Dir.BUY 3 (by decide) (by decide)
    (by decide)).1.mpr (Or.inr (by decide))

/-! ## Claim C7 -/

/-- Claim C7: on a fill event for a tracked bond order the bond module
immediately emits one replacement add on the same side at the same price
(BUY at 1000 − 1, SELL at 1000 + 1) sized to exactly the filled quantity,
and registers its id in `open_bonds`; on an out event for a tracked bond
order it only removes the id from `open_bonds` and emits nothing. -/
theorem c7_bond_replenish (s : BotState) (oid : Nat) (sym : Sym) (d : Dir) (sz : Int)
    (h : oid ∈ s.open_bonds) :
    bond_trading s (Event.fill oid sym d sz) =
      ({ s with
          open_bonds := setInsert s.open_bonds s.order_id
          order_id := s.order_id + 1 },
       [Action.add s.order_id Sym.BOND d
          (if d = Dir.BUY then 1000 - bond_threshold else 1000 + bond_threshold) sz]) ∧
    bond_trading s (Event.out oid) =
      ({ s with open_bonds := s.open_bonds.erase oid }, []) := by
  constructor
  · cases d <;> simp only [bond_trading] <;> rw [if_pos h] <;> rfl
  · simp only [bond_trading]
    rw [if_pos h]

/-- Claim C7, witness: a BUY fill of size 7 on the tracked bond order 0
yields exactly one replacement BUY BOND@999×7 with the fresh id 1, and an
out for id 0 only removes it. -/
theorem c7_bond_replenish_witness :
    (0 ∈ ({ initState with open_bonds := [0], order_id := 1 } : BotState).open_bonds) ∧
    bond_trading { initState with open_bonds := [0], order_id := 1 }
        (Event.fill 0 Sym.BOND Dir.BUY 7) =
      ({ initState with open_bonds := [0, 1], order_id := 2 },
       [Action.add 1 Sym.BOND Dir.BUY 999 7]) ∧
    bond_trading { initState with open_bonds := [0], order_id := 1 } (Event.out 0) =
      ({ initState with open_bonds := [], order_id := 1 }, []) := by
  have h := c7_bond_replenish { initState with open_bonds := [0], order_id := 1 }
    0 Sym.BOND Dir.BUY 7 (by decide)
  refine ⟨by decide, ?_, ?_⟩
  · rw [h.1]; decide
  · rw [h.2]; decide

/-! ## Claim C8 -/

/-- Claim C8: an out event whose order id is tracked nowhere, and a fill
event whose order id is neither in any open-order set nor in the
pending-conversion map, leave the entire engine state unchanged and emit no
outbound action. -/
theorem c8_unknown_id_noop (s : BotState) (oid : Nat) (sym : Sym) (d : Dir) (sz : Int)
    (h1 : oid ∉ s.open_bonds) (h2 : oid ∉ s.open_adrs) (h3 : oid ∉ s.open_etfs)
    (h4 : s.open_adr_converts.lookup oid = none) :
    stepBot s (Event.fill oid sym d sz) = (s, []) ∧
    stepBot s (Event.out oid) = (s, []) := by
  constructor
  · unfold stepBot
    rw [bond_noop_fill h1]
    dsimp only
    rw [adr_noop_fill h2 h4]
    dsimp only
    rw [etf_noop_fill h3]
    rfl
  · unfold stepBot
    rw [bond_noop_out h1]
    dsimp only
    rw [adr_noop_out h2]
    dsimp only
    rw [etf_noop_out h3]
    rfl

/-- Claim C8, witness: in a state tracking bond order 0, ADR order 1, ETF
order 2 and pending conversion 3, the events `fill 9` and `out 9` are
complete no-ops. -/
theorem c8_unknown_id_noop_witness :
    (9 ∉ busyState.open_bonds) ∧
    stepBot busyState (Event.fill 9 Sym.VALE Dir.BUY 5) = (busyState, []) ∧
    stepBot busyState (Event.out 9) = (busyState, []) := by
  have h := c8_unknown_id_noop busyState 9 Sym.VALE Dir.BUY 5
    (by decide) (by decide) (by decide) (by decide)
  exact ⟨by decide, h.1, h.2⟩

/-! ## Claims C5 and C6 -/

theorem etfQuote_prices (s : BotState) :
    (etfQuote s).1.gs_price = s.gs_price ∧ (etfQuote s).1.ms_price = s.ms_price ∧
    (etfQuote s).1.wfc_price = s.wfc_price := by
  dsimp only [etfQuote]
  split_ifs <;> exact ⟨rfl, rfl, rfl⟩

theorem etfQuote_allThree (s : BotState) : allThree (etfQuote s).1 = allThree s := by
  have h := etfQuote_prices s
  simp [allThree, h.1, h.2.1, h.2.2]

theorem etfQuote_neg1 {t : BotState} (h : allThree t = false) : etfQuote t = (t, []) := by
  dsimp only [etfQuote]
  rw [if_neg]
  simp [h]

theorem etfQuote_spec (t : BotState) (h : allThree t = true) :
    (etfQuote t).1.xlf_price = composite t ∧
    composite (etfQuote t).1 = composite t ∧
    ((etfQuote t).2 ≠ [] ↔
      (t.open_etfs = [] ∨ 10 ≤ (composite t - t.etf_order_price).natAbs)) ∧
    ((etfQuote t).2 ≠ [] →
      (etfQuote t).2 = t.open_etfs.map Action.cancel ++
        [Action.add t.order_id Sym.XLF Dir.BUY (composite t - 25) 50,
         Action.add (t.order_id + 1) Sym.XLF Dir.SELL (composite t + 25) 50]) := by
  dsimp only [etfQuote]
  rw [if_pos h]
  by_cases hq : t.open_etfs = [] ∨ 10 ≤ (composite t - t.etf_order_price).natAbs
  · rw [if_pos hq]
    refine ⟨rfl, rfl, iff_of_true (by simp) hq, fun _ => rfl⟩
  · rw [if_neg hq]
    refine ⟨rfl, rfl, iff_of_false (by simp) hq, fun hne => absurd rfl hne⟩

/-- Claim C5: on a component trade, if not all three component estimates
exist afterwards, no action is emitted and `xlf_price` is untouched;
once all three exist, the composite equals
`(3000 + 2*GS + 3*MS + 2*WFC) // 10` with Python floor division, and when
quoting fires the emitted orders are BUY XLF at composite − 25 and SELL XLF
at composite + 25, size 50 each, after cancels of all live ETF ids. -/
theorem c5_etf_composite_quote (s : BotState) (sym : Sym) (p : Int)
    (hsym : sym = Sym.GS ∨ sym = Sym.MS ∨ sym = Sym.WFC) :
    (allThree (etf_trading s (Event.trade sym p)).1 = false →
       (etf_trading s (Event.trade sym p)).2 = [] ∧
       (etf_trading s (Event.trade sym p)).1.xlf_price = s.xlf_price) ∧
    (allThree (etf_trading s (Event.trade sym p)).1 = true →
       (etf_trading s (Event.trade sym p)).1.xlf_price =
         composite (etf_trading s (Event.trade sym p)).1 ∧
       ((etf_trading s (Event.trade sym p)).2 ≠ [] →
         (etf_trading s (Event.trade sym p)).2 =
           s.open_etfs.map Action.cancel ++
             [Action.add s.order_id Sym.XLF Dir.BUY
                (composite (etf_trading s (Event.trade sym p)).1 - 25) 50,
              Action.add (s.order_id + 1) Sym.XLF Dir.SELL
                (composite (etf_trading s (Event.trade sym p)).1 + 25) 50])) := by
  rcases hsym with rfl | rfl | rfl <;>
  · dsimp only [etf_trading, etfOnTrade]
    constructor
    · intro hf
      rw [etfQuote_allThree] at hf
      rw [etfQuote_neg1 hf]
      exact ⟨rfl, rfl⟩
    · intro ht
      rw [etfQuote_allThree] at ht
      have hspec := etfQuote_spec _ ht
      refine ⟨?_, fun hne => ?_⟩
      · rw [hspec.2.1]
        exact hspec.1
      · rw [hspec.2.1]
        exact hspec.2.2.2 hne

/-- Claim C5, witness: with GS = 100 and MS = 50 already sampled, the WFC
trade at 70 completes the composite: 349, and the quote BUY XLF@324×50,
SELL XLF@374×50 is emitted (nothing was emitted for the first two trades,
whose states fail `allThree`). -/
theorem c5_etf_composite_quote_witness :
    (Sym.WFC = Sym.GS ∨ Sym.WFC = Sym.MS ∨ Sym.WFC = Sym.WFC) ∧
    allThree (etf_trading sW (Event.trade Sym.WFC 70)).1 = true ∧
    (etf_trading sW (Event.trade Sym.WFC 70)).1.xlf_price = 349 ∧
    (etf_trading sW (Event.trade Sym.WFC 70)).2 =
      [Action.add 0 Sym.XLF Dir.BUY 324 50, Action.add 1 Sym.XLF Dir.SELL 374 50] := by
  have h := (c5_etf_composite_quote sW Sym.WFC 70 (Or.inr (Or.inr rfl))).2 (by decide)
  refine ⟨Or.inr (Or.inr rfl), by decide, ?_, ?_⟩
  · rw [h.1]; decide
  · rw [h.2 (by decide)]; decide

/-- Claim C6: on a VALBZ trade the ADR module emits actions iff no ADR
orders are live or the new fair moved at least 5 from the quote basis; on a
component trade after which all three estimates exist, the ETF module emits
actions iff no ETF orders are live or the new composite moved at least 10
from the quote basis.  In particular a movement strictly inside the band
with live quotes emits nothing. -/
theorem c6_requote_hysteresis (s t : BotState) (p q : Int) (sym : Sym)
    (hsym : sym = Sym.GS ∨ sym = Sym.MS ∨ sym = Sym.WFC)
    (hall : allThree (etf_trading t (Event.trade sym q)).1 = true) :
    ((adr_trading s (Event.trade Sym.VALBZ p)).2 ≠ [] ↔
      (s.open_adrs = [] ∨ 5 ≤ (avgQ (pushQ s.adr_queue p) - s.adr_order_price).natAbs)) ∧
    ((etf_trading t (Event.trade sym q)).2 ≠ [] ↔
      (t.open_etfs = [] ∨ 10 ≤ (composite (etf_trading t (Event.trade sym q)).1
         - t.etf_order_price).natAbs)) := by
  constructor
  · show (adrOnTrade s Sym.VALBZ p).2 ≠ [] ↔ _
    unfold adrOnTrade
    rw [if_pos (rfl : Sym.VALBZ = Sym.VALBZ)]
    dsimp only
    by_cases hc : s.open_adrs = [] ∨ 5 ≤ (avgQ (pushQ s.adr_queue p) - s.adr_order_price).natAbs
    · rw [if_pos hc]
      exact iff_of_true (by simp) hc
    · rw [if_neg hc]
      exact iff_of_false (by simp) hc
  · rcases hsym with rfl | rfl | rfl <;>
    · dsimp only [etf_trading, etfOnTrade] at hall ⊢
      rw [etfQuote_allThree] at hall
      have hspec := etfQuote_spec _ hall
      rw [hspec.2.1]
      exact hspec.2.2.1

/-- Claim C6, witness: with empty books both modules re-quote (the
no-live-orders disjunct), verified through the hysteresis theorem at a
VALBZ trade at 500 and a GS trade at 100 completing the composite. -/
theorem c6_requote_hysteresis_witness :
    allThree (etf_trading tW (Event.trade Sym.GS 100)).1 = true ∧
    (adr_trading initState (Event.trade Sym.VALBZ 500)).2 ≠ [] ∧
    (etf_trading tW (Event.trade Sym.GS 100)).2 ≠ [] := by
  refine ⟨by decide, ?_, ?_⟩
  · exact (c6_requote_hysteresis initState tW 500 100 Sym.GS (Or.inl rfl)
      (by decide)).1.mpr (Or.inl rfl)
  · exact (c6_requote_hysteresis initState tW 500 100 Sym.GS (Or.inl rfl)
      (by decide)).2.mpr (Or.inl rfl)

/-! ## Claims C9 and C10 -/

theorem adrOnTrade_converts (s : BotState) (sym : Sym) (p : Int) :
    (adrOnTrade s sym p).1.open_adr_converts = s.open_adr_converts := by
  dsimp only [adrOnTrade]
  split_ifs <;> rfl

theorem adrConvertFill_converts (s : BotState) (oid : Nat) (sz : Int) :
    (adrConvertFill s oid sz).1.open_adr_converts = s.open_adr_converts := by
  unfold adrConvertFill
  (repeat' split) <;> rfl

theorem adrConvertFill_adrs (s : BotState) (oid : Nat) (sz : Int) :
    (adrConvertFill s oid sz).1.open_adrs = s.open_adrs := by
  unfold adrConvertFill
  (repeat' split) <;> rfl

theorem adrConvertChecks_adrs (s : BotState) (sz : Int) :
    (adrConvertChecks s sz).1.open_adrs = s.open_adrs := by
  dsimp only [adrConvertChecks]
  split_ifs <;> rfl

theorem adrConvertChecks_isSome (s : BotState) (sz : Int) (j : Nat)
    (h : (s.open_adr_converts.lookup j).isSome = true) :
    ((adrConvertChecks s sz).1.open_adr_converts.lookup j).isSome = true := by
  dsimp only [adrConvertChecks]
  split_ifs
  · exact lookup_isSome_cons (lookup_isSome_cons h)
  · exact lookup_isSome_cons h
  · exact lookup_isSome_cons h
  · exact h

theorem adrFillTracked_grows (s : BotState) (sym : Sym) (d : Dir) (sz : Int) {x : Nat}
    (hx : x ∈ s.open_adrs) : x ∈ (adrFillTracked s sym d sz).1.open_adrs := by
  cases d <;> cases sym <;>
    first
      | exact hx
      | exact mem_setInsert_of_mem _ (mem_setInsert_of_mem _ hx)

theorem adr_grows_trade (s : BotState) (sym : Sym) (p : Int) {x : Nat}
    (hx : x ∈ s.open_adrs) : x ∈ (adr_trading s (Event.trade sym p)).1.open_adrs := by
  dsimp only [adr_trading, adrOnTrade]
  split_ifs
  · exact mem_setInsert_of_mem _ (mem_setInsert_of_mem _ hx)
  · exact hx
  · exact hx

theorem adr_grows_fill (s : BotState) (oid : Nat) (sym : Sym) (d : Dir) (sz : Int) {x : Nat}
    (hx : x ∈ s.open_adrs) :
    x ∈ (adr_trading s (Event.fill oid sym d sz)).1.open_adrs := by
  simp only [adr_trading, adrOnFill]
  rw [adrConvertFill_adrs]
  split
  · rw [adrConvertChecks_adrs]
    exact adrFillTracked_grows s sym d sz hx
  · exact hx

theorem adr_out_erase {s : BotState} {oid : Nat} (h : oid ∈ s.open_adrs) :
    adr_trading s (Event.out oid) = ({ s with open_adrs := s.open_adrs.erase oid }, []) := by
  simp only [adr_trading]
  rw [if_pos h]

theorem etf_out_erase {s : BotState} {oid : Nat} (h : oid ∈ s.open_etfs) :
    etf_trading s (Event.out oid) = ({ s with open_etfs := s.open_etfs.erase oid }, []) := by
  simp only [etf_trading]
  rw [if_pos h]

theorem etfQuote_grows {s : BotState} {x : Nat} (hx : x ∈ s.open_etfs) :
    x ∈ (etfQuote s).1.open_etfs := by
  dsimp only [etfQuote]
  split_ifs
  · exact mem_setInsert_of_mem _ (mem_setInsert_of_mem _ hx)
  · exact hx
  · exact hx

theorem etf_grows_trade (s : BotState) (sym : Sym) (p : Int) {x : Nat}
    (hx : x ∈ s.open_etfs) : x ∈ (etf_trading s (Event.trade sym p)).1.open_etfs := by
  cases sym <;> dsimp only [etf_trading, etfOnTrade] <;>
    first
      | exact hx
      | exact etfQuote_grows hx

theorem etf_grows_fill (s : BotState) (oid : Nat) (sym : Sym) (d : Dir) (sz : Int) {x : Nat}
    (hx : x ∈ s.open_etfs) :
    x ∈ (etf_trading s (Event.fill oid sym d sz)).1.open_etfs := by
  cases d <;> dsimp only [etf_trading, etfOnFill, hedge_etf] <;>
    (repeat' split) <;> (repeat' apply mem_setInsert_of_mem) <;> exact hx

theorem adr_converts_isSome (s : BotState) (e : Event) (k : Nat)
    (h : (s.open_adr_converts.lookup k).isSome = true) :
    ((adr_trading s e).1.open_adr_converts.lookup k).isSome = true := by
  cases e with
  | trade sym p =>
      rw [show (adr_trading s (Event.trade sym p)).1 = (adrOnTrade s sym p).1 from rfl,
        adrOnTrade_converts]
      exact h
  | fill oid sym d sz =>
      simp only [adr_trading, adrOnFill]
      rw [adrConvertFill_converts]
      split
      · exact adrConvertChecks_isSome _ _ _ (by rw [adrFillTracked_converts]; exact h)
      · exact h
  | out oid =>
      by_cases hm : oid ∈ s.open_adrs
      · rw [adr_out_erase hm]
        exact h
      · rw [adr_noop_out hm]
        exact h

/-- Claim C9: re-quoting never removes ids — on a VALBZ trade every ADR id
live before the cancel loop is still in `open_adrs` afterwards, and on a
component trade every ETF id is still in `open_etfs`; across any event, an
id can only leave its strategy's open-order set through an out event
carrying exactly that id. -/
theorem c9_cancel_keeps_ledger (s : BotState) (e : Event) (p q : Int) (sym : Sym) (x : Nat) :
    (x ∈ s.open_adrs → x ∈ (adr_trading s (Event.trade Sym.VALBZ p)).1.open_adrs) ∧
    (x ∈ s.open_etfs → x ∈ (etf_trading s (Event.trade sym q)).1.open_etfs) ∧
    (x ∈ s.open_adrs → x ∉ (stepBot s e).1.open_adrs → e = Event.out x) ∧
    (x ∈ s.open_etfs → x ∉ (stepBot s e).1.open_etfs → e = Event.out x) := by
  refine ⟨fun hx => adr_grows_trade s Sym.VALBZ p hx,
    fun hx => etf_grows_trade s sym q hx, ?_, ?_⟩
  · intro hx hnx
    cases e with
    | trade sy pr =>
        exfalso
        apply hnx
        unfold stepBot
        dsimp only
        rw [etf_open_adrs]
        exact adr_grows_trade _ sy pr (by rw [bond_open_adrs]; exact hx)
    | fill oid sy dd szz =>
        exfalso
        apply hnx
        unfold stepBot
        dsimp only
        rw [etf_open_adrs]
        exact adr_grows_fill _ oid sy dd szz (by rw [bond_open_adrs]; exact hx)
    | out oid =>
        have hfin : (stepBot s (Event.out oid)).1.open_adrs =
            (adr_trading (bond_trading s (Event.out oid)).1 (Event.out oid)).1.open_adrs := by
          unfold stepBot
          dsimp only
          rw [etf_open_adrs]
        by_cases hmem : oid ∈ (bond_trading s (Event.out oid)).1.open_adrs
        · by_cases hxo : x = oid
          · rw [hxo]
          · exfalso
            apply hnx
            rw [hfin, adr_out_erase hmem]
            dsimp only
            rw [List.mem_erase_of_ne hxo, bond_open_adrs]
            exact hx
        · exfalso
          apply hnx
          rw [hfin, adr_noop_out hmem]
          dsimp only
          rw [bond_open_adrs]
          exact hx
  · intro hx hnx
    cases e with
    | trade sy pr =>
        exfalso
        apply hnx
        unfold stepBot
        dsimp only
        exact etf_grows_trade _ sy pr (by rw [adr_open_etfs, bond_open_etfs]; exact hx)
    | fill oid sy dd szz =>
        exfalso
        apply hnx
        unfold stepBot
        dsimp only
        exact etf_grows_fill _ oid sy dd szz (by rw [adr_open_etfs, bond_open_etfs]; exact hx)
    | out oid =>
        have hpre :
            (adr_trading (bond_trading s (Event.out oid)).1 (Event.out oid)).1.open_etfs
              = s.open_etfs := by
          rw [adr_open_etfs, bond_open_etfs]
        by_cases hmem : oid ∈
            (adr_trading (bond_trading s (Event.out oid)).1 (Event.out oid)).1.open_etfs
        · by_cases hxo : x = oid
          · rw [hxo]
          · exfalso
            apply hnx
            unfold stepBot
            dsimp only
            rw [etf_out_erase hmem]
            dsimp only
            rw [List.mem_erase_of_ne hxo, hpre]
            exact hx
        · exfalso
          apply hnx
          unfold stepBot
          dsimp only
          rw [etf_noop_out hmem]
          rw [hpre]
          exact hx

/-- Claim C9, witness: with id 3 live for both the ADR and the ETF strategy,
a VALBZ trade keeps 3 in `open_adrs`, a GS trade keeps 3 in `open_etfs`, and
the only event that removes 3 from either set is `out 3` itself. -/
theorem c9_cancel_keeps_ledger_witness :
    (3 ∈ c9State.open_adrs) ∧
    (3 ∈ (adr_trading c9State (Event.trade Sym.VALBZ 500)).1.open_adrs) ∧
    (3 ∈ (etf_trading c9State (Event.trade Sym.GS 100)).1.open_etfs) ∧
    (3 ∉ (stepBot c9State (Event.out 3)).1.open_adrs) ∧
    (Event.out 3 = Event.out 3) := by
  have h := c9_cancel_keeps_ledger c9State (Event.out 3) 500 100 Sym.GS 3
  exact ⟨by decide, h.1 (by decide), h.2.1 (by decide), by decide,
    h.2.2.1 (by decide) (by decide)⟩

/-- Claim C10: an id recorded in the pending ADR conversion map is never
removed by any subsequent event (in particular out events do not delete
pending-conversion entries), and every fill carrying a pending-conversion id
(not simultaneously a live ADR quote id) re-applies the signed inventory
adjustment dictated by the recorded direction: BUY adds the fill size to
`adr_count` and subtracts it from `adr_z_count`, SELL the mirror. -/
theorem c10_pending_convert_persistent (s : BotState) (e : Event) (k oid : Nat) (dv : Dir)
    (sym : Sym) (d : Dir) (sz : Int)
    (h1 : (s.open_adr_converts.lookup k).isSome = true)
    (h2 : s.open_adr_converts.lookup oid = some dv)
    (h3 : oid ∉ s.open_adrs) :
    (((stepBot s e).1.open_adr_converts.lookup k).isSome = true) ∧
    ((stepBot s (Event.fill oid sym d sz)).1.adr_count,
     (stepBot s (Event.fill oid sym d sz)).1.adr_z_count) =
      (match dv with
       | Dir.BUY => (s.adr_count + sz, s.adr_z_count - sz)
       | Dir.SELL => (s.adr_count - sz, s.adr_z_count + sz)) := by
  constructor
  · unfold stepBot
    dsimp only
    rw [etf_adr_converts]
    exact adr_converts_isSome _ e k (by rw [bond_adr_converts]; exact h1)
  · unfold stepBot
    dsimp only
    rw [(etf_adr_counts _ _).1, (etf_adr_counts _ _).2]
    have hb3 := bond_adr_counts s (Event.fill oid sym d sz)
    have hno : oid ∉ (bond_trading s (Event.fill oid sym d sz)).1.open_adrs := by
      rw [bond_open_adrs]; exact h3
    have hlk : (bond_trading s (Event.fill oid sym d sz)).1.open_adr_converts.lookup oid
        = some dv := by rw [bond_adr_converts]; exact h2
    simp only [adr_trading, adrOnFill]
    rw [if_neg hno]
    dsimp only
    rw [adrConvertFill_some hlk]
    cases dv <;> dsimp only <;> rw [hb3.1, hb3.2]

/-- Claim C10, witness: with pending conversion 3 recorded as SELL, an out
for 3 leaves the entry present, and a fill of size 5 carrying id 3 moves the
inventories by (−5, +5). -/
theorem c10_pending_convert_persistent_witness :
    ((busyState.open_adr_converts.lookup 3).isSome = true) ∧
    (busyState.open_adr_converts.lookup 3 = some Dir.SELL) ∧
    (3 ∉ busyState.open_adrs) ∧
    (((stepBot busyState (Event.out 3)).1.open_adr_converts.lookup 3).isSome = true) ∧
    ((stepBot busyState (Event.fill 3 Sym.VALE Dir.BUY 5)).1.adr_count,
     (stepBot busyState (Event.fill 3 Sym.VALE Dir.BUY 5)).1.adr_z_count) =
      (busyState.adr_count - 5, busyState.adr_z_count + 5) := by
  have h := c10_pending_convert_persistent busyState (Event.out 3) 3 3 Dir.SELL
    Sym.VALE Dir.BUY 5 (by decide) (by decide) (by decide)
  exact ⟨by decide, by decide, by decide, h.1, h.2⟩

/-! ## Claim C4 -/

theorem batch_nil (n : Nat) : BatchOK n [] n := by
  refine ⟨le_refl n, ?_, ?_⟩ <;> simp [BatchOK]

theorem batch_one (a : Action) (n : Nat) (ha : a.aid = n) (hc : a.isAddConv = true) :
    BatchOK n [a] (n + 1) := by
  refine ⟨by omega, ?_, ?_⟩
  · intro b hb
    simp [hc] at hb
    subst hb
    exact ⟨le_of_eq ha.symm, Or.inl (by omega)⟩
  · simp [hc]

theorem batch_one_add (n : Nat) (sy : Sym) (d : Dir) (p z : Int) :
    BatchOK n [Action.add n sy d p z] (n + 1) :=
  batch_one (Action.add n sy d p z) n rfl rfl

theorem batch_one_conv (n : Nat) (sy : Sym) (d : Dir) (p z : Int) :
    BatchOK n [Action.convert n sy d p z] (n + 1) :=
  batch_one (Action.convert n sy d p z) n rfl rfl

theorem batch_one_xlf (n : Nat) (d : Dir) (p z : Int) :
    BatchOK n [Action.convert n Sym.XLF d p z] n := by
  refine ⟨le_refl n, ?_, ?_⟩
  · intro b hb
    simp [Action.isAddConv] at hb
    subst hb
    exact ⟨le_refl n, Or.inr ⟨rfl, rfl⟩⟩
  · simp [Action.isAddConv]

theorem batch_append {n m p : Nat} {l1 l2 : List Action}
    (h1 : BatchOK n l1 m) (h2 : BatchOK m l2 p) : BatchOK n (l1 ++ l2) p := by
  obtain ⟨hnm, hb1, hp1⟩ := h1
  obtain ⟨hmp, hb2, hp2⟩ := h2
  refine ⟨le_trans hnm hmp, ?_, ?_⟩
  · intro a ha
    rw [List.filter_append] at ha
    rcases List.mem_append.mp ha with h | h
    · obtain ⟨hna, hbound⟩ := hb1 a h
      refine ⟨hna, ?_⟩
      rcases hbound with h' | ⟨heq, hconv⟩
      · exact Or.inl (by omega)
      · rcases Nat.lt_or_ge m p with hlt | hge
        · exact Or.inl (by omega)
        · exact Or.inr ⟨by omega, hconv⟩
    · obtain ⟨hma, hbound⟩ := hb2 a h
      exact ⟨le_trans hnm hma, hbound⟩
  · rw [List.filter_append, List.pairwise_append]
    refine ⟨hp1, hp2, ?_⟩
    intro a ha b hb
    obtain ⟨hna, hbound⟩ := hb1 a ha
    obtain ⟨hmb, _⟩ := hb2 b hb
    rcases hbound with h' | ⟨heq, hconv⟩
    · exact Or.inl (by omega)
    · rcases Nat.lt_or_ge a.aid b.aid with hlt | hge
      · exact Or.inl hlt
      · exact Or.inr ⟨by omega, hconv⟩

theorem filter_cancels (l : List Nat) :
    (l.map Action.cancel).filter (fun a => a.isAddConv) = [] := by
  induction l with
  | nil => rfl
  | cons x xs ih => simp [Action.isAddConv, ih]

theorem batch_cancels (ids : List Nat) {n m : Nat} {l : List Action}
    (h : BatchOK n l m) : BatchOK n (ids.map Action.cancel ++ l) m := by
  obtain ⟨h1, h2, h3⟩ := h
  refine ⟨h1, ?_, ?_⟩ <;>
    rw [List.filter_append, filter_cancels, List.nil_append] <;> assumption

theorem batch_cons (a : Action) {n m : Nat} {l : List Action}
    (ha : a.aid = n) (hc : a.isAddConv = true) (h : BatchOK (n + 1) l m) :
    BatchOK n (a :: l) m :=
  batch_append (batch_one a n ha hc) h

theorem batch_append_f {n m p : Nat} {l1 l2 : List Action}
    (h1 : BatchOK n l1 m) (h2 : BatchOK m l2 p) : BatchOK n (List.append l1 l2) p :=
  batch_append h1 h2

theorem batch_two_adds (n : Nat) (s1 : Sym) (d1 : Dir) (p1 z1 : Int)
    (s2 : Sym) (d2 : Dir) (p2 z2 : Int) :
    BatchOK n [Action.add n s1 d1 p1 z1, Action.add (n + 1) s2 d2 p2 z2] (n + 2) :=
  batch_append (batch_one_add n s1 d1 p1 z1) (batch_one_add (n + 1) s2 d2 p2 z2)

theorem bondSetup_batch (s : BotState) :
    BatchOK s.order_id (bondSetup s).2 (bondSetup s).1.order_id :=
  batch_two_adds _ _ _ _ _ _ _ _ _

theorem bond_batch (s : BotState) (e : Event) :
    BatchOK s.order_id (bond_trading s e).2 (bond_trading s e).1.order_id := by
  cases e <;> simp only [bond_trading] <;> (repeat' split) <;>
    first
      | exact batch_nil _
      | exact batch_one_add _ _ _ _ _

theorem adrOnTrade_batch (s : BotState) (sym : Sym) (p : Int) :
    BatchOK s.order_id (adrOnTrade s sym p).2 (adrOnTrade s sym p).1.order_id := by
  dsimp only [adrOnTrade]
  split_ifs
  · exact batch_cancels _ (batch_two_adds _ _ _ _ _ _ _ _ _)
  · exact batch_nil _
  · exact batch_nil _

theorem adrFillTracked_batch (s : BotState) (sym : Sym) (d : Dir) (sz : Int) :
    BatchOK s.order_id (adrFillTracked s sym d sz).2 (adrFillTracked s sym d sz).1.order_id := by
  cases d <;> cases sym <;>
    first
      | exact batch_nil _
      | exact batch_two_adds _ _ _ _ _ _ _ _ _

theorem adrConvertChecks_batch (s : BotState) (sz : Int) :
    BatchOK s.order_id (adrConvertChecks s sz).2 (adrConvertChecks s sz).1.order_id := by
  dsimp only [adrConvertChecks]
  split_ifs
  · exact batch_append (batch_one_conv _ _ _ _ _) (batch_one_conv _ _ _ _ _)
  · exact batch_append (batch_one_conv _ _ _ _ _) (batch_nil _)
  · exact batch_append (batch_nil _) (batch_one_conv _ _ _ _ _)
  · exact batch_nil _

theorem adrConvertFill_oid (s : BotState) (oid : Nat) (sz : Int) :
    (adrConvertFill s oid sz).1.order_id = s.order_id ∧
    (adrConvertFill s oid sz).2 = [] := by
  unfold adrConvertFill
  (repeat' split) <;> exact ⟨rfl, rfl⟩

theorem adr_batch (s : BotState) (e : Event) :
    BatchOK s.order_id (adr_trading s e).2 (adr_trading s e).1.order_id := by
  cases e with
  | trade sym p => exact adrOnTrade_batch s sym p
  | fill oid sym d sz =>
      simp only [adr_trading, adrOnFill]
      split
      · rw [(adrConvertFill_oid _ _ _).1, (adrConvertFill_oid _ _ _).2, List.append_nil]
        exact batch_append (adrFillTracked_batch _ _ _ _) (adrConvertChecks_batch _ _)
      · rw [(adrConvertFill_oid _ _ _).1, (adrConvertFill_oid _ _ _).2, List.append_nil]
        exact batch_nil _
  | out oid =>
      simp only [adr_trading]
      split
      · exact batch_nil _
      · exact batch_nil _

theorem hedge_batch (s : BotState) (oper : Dir) (fac : Int) :
    BatchOK s.order_id (hedge_etf s oper fac).2 (hedge_etf s oper fac).1.order_id :=
  batch_append (batch_one_add _ _ _ _ _)
    (batch_append (batch_one_add _ _ _ _ _) (batch_one_add _ _ _ _ _))

theorem etfQuote_batch (s : BotState) :
    BatchOK s.order_id (etfQuote s).2 (etfQuote s).1.order_id := by
  dsimp only [etfQuote]
  split_ifs
  · exact batch_cancels _ (batch_two_adds _ _ _ _ _ _ _ _ _)
  · exact batch_nil _
  · exact batch_nil _

theorem hedge_batch_g (s : BotState) (oper : Dir) (fac : Int) {n m : Nat}
    (hn : n = s.order_id) (hm : m = (hedge_etf s oper fac).1.order_id) :
    BatchOK n (hedge_etf s oper fac).2 m := by
  subst hn
  subst hm
  exact hedge_batch s oper fac

theorem etfOnFill_batch (s : BotState) (oid : Nat) (sym : Sym) (d : Dir) (sz : Int) :
    BatchOK s.order_id (etfOnFill s oid sym d sz).2 (etfOnFill s oid sym d sz).1.order_id := by
  dsimp only [etfOnFill]
  split
  · cases d <;> cases sym <;> dsimp only <;> split_ifs <;>
      first
        | exact batch_nil _
        | exact batch_one_xlf _ _ _ _
        | (refine batch_cons _ ?_ ?_ ?_
           rfl
           rfl
           exact hedge_batch_g _ _ _ rfl rfl)
        | (refine batch_cons _ ?_ ?_ ?_
           rfl
           rfl
           exact batch_append_f (hedge_batch_g _ _ _ rfl rfl) (batch_one_xlf _ _ _ _))
  · exact batch_nil _

theorem etfQuote_batch_g (s : BotState) {n m : Nat}
    (hn : n = s.order_id) (hm : m = (etfQuote s).1.order_id) :
    BatchOK n (etfQuote s).2 m := by
  subst hn
  subst hm
  exact etfQuote_batch s

theorem etf_batch (s : BotState) (e : Event) :
    BatchOK s.order_id (etf_trading s e).2 (etf_trading s e).1.order_id := by
  cases e with
  | trade sym p =>
      cases sym <;> dsimp only [etf_trading, etfOnTrade] <;>
        first
          | exact batch_nil _
          | exact etfQuote_batch_g _ rfl rfl
  | fill oid sym d sz => exact etfOnFill_batch s oid sym d sz
  | out oid =>
      simp only [etf_trading]
      split
      · exact batch_nil _
      · exact batch_nil _

theorem step_batch (s : BotState) (e : Event) :
    BatchOK s.order_id (stepBot s e).2 (stepBot s e).1.order_id := by
  unfold stepBot
  dsimp only
  exact batch_append (batch_append (bond_batch s e) (adr_batch _ e)) (etf_batch _ e)

theorem run_batch (es : List Event) : ∀ s : BotState,
    BatchOK s.order_id (runBot s es).2 (runBot s es).1.order_id := by
  induction es with
  | nil => intro s; exact batch_nil _
  | cons e es ih =>
      intro s
      simp only [runBot]
      exact batch_append (step_batch s e) (ih (stepBot s e).1)

/-- Claim C4, counterexample: in the run that builds up ETF inventory until
the ≥-threshold conversion fires, the emitted XLF convert carries order id
12, and because its emission does not advance the allocator, the very next
add (a bond replenishment) also carries order id 12: two distinct outbound
actions with the same id. -/
theorem c4_counterexample :
    Action.convert 12 Sym.XLF Dir.SELL 374 30 ∈
      (runFromStart [Event.trade Sym.GS 100, Event.trade Sym.MS 50,
        Event.trade Sym.WFC 70, Event.fill 2 Sym.XLF Dir.BUY 30,
        Event.fill 5 Sym.GS Dir.SELL 6, Event.fill 6 Sym.MS Dir.SELL 9,
        Event.fill 7 Sym.WFC Dir.SELL 6, Event.fill 4 Sym.XLF Dir.BUY 1,
        Event.fill 0 Sym.BOND Dir.BUY 1]).2 ∧
    Action.add 12 Sym.BOND Dir.BUY 999 1 ∈
      (runFromStart [Event.trade Sym.GS 100, Event.trade Sym.MS 50,
        Event.trade Sym.WFC 70, Event.fill 2 Sym.XLF Dir.BUY 30,
        Event.fill 5 Sym.GS Dir.SELL 6, Event.fill 6 Sym.MS Dir.SELL 9,
        Event.fill 7 Sym.WFC Dir.SELL 6, Event.fill 4 Sym.XLF Dir.BUY 1,
        Event.fill 0 Sym.BOND Dir.BUY 1]).2 := by
  decide

/-- Claim C4 (amended): across every event sequence, the ids carried by the
add and convert actions of the run form a non-decreasing sequence, and an id
is repeated only when the earlier of the two actions is an ETF (XLF) convert
— the one emission that does not advance the allocator; in particular the
add actions emitted after an ETF convert reuse its id, and all other
add/convert ids are pairwise distinct. -/
theorem c4_order_id_discipline (es : List Event) :
    ((runFromStart es).2.filter (fun a => a.isAddConv)).Pairwise IdOrder :=
  (batch_append (bondSetup_batch initState) (run_batch es (bondSetup initState).1)).2.2

end JSBot
